import Mathlib

/-!
Shallow embedding of `shipstation_integration/orders.py` (order synchronization
and reconciliation pipeline) and verification of the specification claims.

Modelling conventions:
* Monetary amounts (Python `Decimal` / `flt`) are exact rationals `ℚ`.
* `Decimal.quantize(Decimal(".01"))` (banker's rounding, the Python default
  `ROUND_HALF_EVEN`) is `quantize2`.
* The database of already-submitted Sales Orders (`frappe.db.get_value("Sales
  Order", {shipstation_order_id, docstatus: 1})`) is a list of the external
  order ids of submitted internal orders.
* Optional values (`hasattr` guards, nullable fields, Python `None`) are
  `Option`; Python truthiness of a numeric field is an explicit `≠ 0` test.
* External collaborators (catalog item creation, the commission formula value
  stored on the Sales Partner, attribute lookup on the in-progress document,
  `frappe.safe_eval` on a placeholder-free string, and the pre/post submit
  extension hooks) are parameters gathered in `Ctx`; the query-parameter,
  header-rewrite and line-item-transform hooks are modelled as unregistered.
* Dates are integers (`getdate` yields a comparable value).
-/

/-- A line-item option (`ShipStationOrderItem.options` entries). -/
structure OrderOption where
  name : String
  value : String
deriving DecidableEq

/-- A remote ShipStation order line item; `unit_price` and `options` are
`Option` because the source guards them with `hasattr`. -/
structure RemoteLineItem where
  quantity : Int
  unit_price : Option ℚ
  line_item_key : String
  order_item_id : String
  options : Option (List OrderOption)
deriving DecidableEq

/-- A remote ShipStation order (the fields the pipeline reads). -/
structure RemoteOrder where
  order_id : String
  order_number : String
  warehouse_id : Option Int
  create_date : Int
  tax_amount : ℚ
  shipping_amount : ℚ
  amount_paid : Option ℚ
  items : Option (List RemoteLineItem)
deriving DecidableEq

/-- Per-store configuration (`ShipstationStore`). -/
structure StoreConfig where
  tax_account : String
  shipping_income_account : String
  difference_account : String
  commission_account : String
  sales_partner : Option String
  apply_commission : Bool
  withholding : Bool
  warehouse : String
deriving DecidableEq

/-- Per-tenant settings (`ShipstationSettings`): warehouse allow-list and
optional date cutoff. -/
structure TenantSettings where
  active_warehouse_ids : List Int
  since_date : Option Int
deriving DecidableEq

/-- Python membership test `order.advanced_options.warehouse_id in ids`
(a missing warehouse id is a member of no list). -/
def warehouseIdIn (w : Option Int) (ids : List Int) : Bool :=
  match w with
  | some x => ids.contains x
  | none => false

/-- The date-cutoff rule of `validate_order` (line 114): with a cutoff set,
an order created before it is rejected. -/
def dateFilterOk (since_date : Option Int) (create_date : Int) : Bool :=
  match since_date with
  | some d => !(decide (create_date < d))
  | none => true

/-- `validate_order` (orders.py lines 93-117). `db` is the set of external
order ids of already-submitted internal Sales Orders. -/
def validate_order (db : List String) (settings : TenantSettings)
    (order : Option RemoteOrder) (_store : StoreConfig) : Bool :=
  match order with
  | none => false
  | some o =>
    if db.contains o.order_id then false
    else if !settings.active_warehouse_ids.isEmpty
        && !(warehouseIdIn o.warehouse_id settings.active_warehouse_ids) then false
    else dateFilterOk settings.since_date o.create_date

/-- `get_item_notes` (orders.py lines 305-313): value of the first option
named "Description", if any. -/
def get_item_notes (item : RemoteLineItem) : Option String :=
  match item.options with
  | none => none
  | some opts => (opts.find? fun o => o.name == "Description").map (·.value)

/-- An internal Sales Order line (the fields appended at lines 186-198). -/
structure SOItem where
  item_code : String
  qty : Int
  rate : ℚ
  warehouse : String
  shipstation_order_item_id : String
  shipstation_item_notes : Option String
deriving DecidableEq

/-- An internal charge line appended to the order's `taxes` table
(`charge_type` is always "Actual" and `cost_center` always the store's;
both are omitted as constants). -/
structure SOCharge where
  account_head : String
  description : String
  tax_amount : ℚ
  included_in_paid_amount : Bool
deriving DecidableEq

/-- The internal Sales Order aggregate (claim-relevant fields). -/
structure SalesOrder where
  shipstation_order_id : String
  sales_partner : Option String
  items : List SOItem
  taxes : List SOCharge
  apply_discount_on : Option String
  discount_amount : ℚ
  submitted : Bool
deriving DecidableEq

/-- Build one merchandise Sales Order line (orders.py lines 184-198);
`create_item` is the delegated catalog service. -/
def toSOItem (create_item : RemoteLineItem → String) (store : StoreConfig)
    (item : RemoteLineItem) (rate : ℚ) : SOItem :=
  { item_code := create_item item
    qty := item.quantity
    rate := rate
    warehouse := store.warehouse
    shipstation_order_item_id := item.order_item_id
    shipstation_item_notes := get_item_notes item }

/-- The line-item loop (orders.py lines 170-198): skip quantity < 1, turn
`line_item_key == "discount"` lines into an accumulated absolute discount
total, and map the rest to merchandise lines.  Returns
(merchandise lines, discount total). -/
def mapLineItems (create_item : RemoteLineItem → String) (store : StoreConfig) :
    List RemoteLineItem → List SOItem × ℚ
  | [] => ([], 0)
  | item :: rest =>
    let tail := mapLineItems create_item store rest
    if item.quantity < 1 then tail
    else
      let rate := item.unit_price.getD 0
      if item.line_item_key = "discount" then
        (tail.1, |rate * (item.quantity : ℚ)| + tail.2)
      else
        (toSOItem create_item store item rate :: tail.1, tail.2)

/-- Merchandise total of the mapped lines (qty × rate summed). -/
def itemsTotal (l : List SOItem) : ℚ :=
  (l.map fun i => (i.qty : ℚ) * i.rate).sum

/-- Total of a list of charge lines. -/
def chargesTotal (l : List SOCharge) : ℚ :=
  (l.map fun c => c.tax_amount).sum

/-- `Decimal(x).quantize(Decimal(".01"))`: round to 2 decimal places with
Python's default `ROUND_HALF_EVEN` (banker's rounding). -/
def roundHalfEven (x : ℚ) : ℤ :=
  let n := ⌊x⌋
  let f := x - (n : ℚ)
  if f < 1 / 2 then n
  else if 1 / 2 < f then n + 1
  else if n % 2 = 0 then n else n + 1

/-- Quantization of a monetary amount to cents. -/
def quantize2 (q : ℚ) : ℚ :=
  ((roundHalfEven (q * 100) : ℤ) : ℚ) / 100

/-- Tax and shipping charges (orders.py lines 205-227): each appended only
when the corresponding amount is truthy (nonzero). -/
def baseTaxes (store : StoreConfig) (order : RemoteOrder) : List SOCharge :=
  (if order.tax_amount ≠ 0 then
    [{ account_head := store.tax_account
       description := "Shipstation Tax Amount"
       tax_amount := order.tax_amount
       included_in_paid_amount := false }]
  else []) ++
  (if order.shipping_amount ≠ 0 then
    [{ account_head := store.shipping_income_account
       description := "Shipstation Shipping Amount"
       tax_amount := order.shipping_amount
       included_in_paid_amount := false }]
  else [])

/-- The difference/settlement charge (orders.py lines 233-248).  The grand
total (as recomputed by the first save) is quantized to 2 decimals; the
remote `amount_paid` and `shipping_amount` are used as reported.  A falsy
(absent or zero) `amount_paid` yields no charge. -/
def differenceChargeWith (store : StoreConfig) (shipping_amount : ℚ)
    (grand_total : ℚ) : Option ℚ → List SOCharge
  | none => []
  | some ap =>
    if ap ≠ 0 ∧ quantize2 grand_total ≠ ap then
      let difference_amount := quantize2 grand_total - ap
      let account :=
        if difference_amount = shipping_amount then store.shipping_income_account
        else store.difference_account
      [{ account_head := account
         description := "Shipstation Difference Amount"
         tax_amount := -difference_amount
         included_in_paid_amount := false }]
    else []

/-- The difference/settlement charge applied to an order. -/
def differenceCharge (store : StoreConfig) (order : RemoteOrder)
    (grand_total : ℚ) : List SOCharge :=
  differenceChargeWith store order.shipping_amount grand_total order.amount_paid

/-- The withholding reversal charge (orders.py lines 250-261). -/
def withholdingCharge (store : StoreConfig) (order : RemoteOrder) : List SOCharge :=
  if order.tax_amount ≠ 0 ∧ store.withholding then
    [{ account_head := store.tax_account
       description := "Shipstation Tax Amount"
       tax_amount := -order.tax_amount
       included_in_paid_amount := false }]
  else []

/-- A commission charge (orders.py lines 274-284). -/
def commissionCharge (store : StoreConfig) (v : ℚ) : SOCharge :=
  { account_head := store.commission_account
    description := "Commission of " ++ toString v
    tax_amount := -v
    included_in_paid_amount := true }

/-- A parsed commission-formula template: literal text segments and
placeholder segments written in the source, in regex form, as a name
between double braces. -/
inductive FPart where
  | lit (s : String)
  | var (name : String)
deriving DecidableEq

/-- Whether a template part is plain literal text. -/
def FPart.isLit : FPart → Bool
  | .lit _ => true
  | .var _ => false

/-- The substitution loop of `get_formula_based_commission` (orders.py
lines 319-326): each placeholder whose name is an attribute of the document
is replaced everywhere by the attribute value's string form; a placeholder
whose name is not an attribute is left untouched. -/
def substituteVariables (attrs : List (String × String)) :
    List FPart → List FPart
  | [] => []
  | .lit s :: rest => .lit s :: substituteVariables attrs rest
  | .var n :: rest =>
    (match attrs.lookup n with
     | some v => .lit v
     | none => .var n) :: substituteVariables attrs rest

/-- Render a template back to the formula string; a surviving placeholder
keeps its literal brace-delimited source form. -/
def renderFormula : List FPart → String
  | [] => ""
  | .lit s :: rest => s ++ renderFormula rest
  | .var n :: rest => "\x7b\x7b" ++ n ++ "\x7d\x7d" ++ renderFormula rest

/-- `get_formula_based_commission` (orders.py lines 316-332).  `attrs` is
the document's attribute map (`hasattr`/`getattr`), `safe_eval` models
`frappe.safe_eval` on a placeholder-free arithmetic string (`none` for an
evaluation exception).  A template still containing a placeholder reaches
evaluation with the literal braces in the text, which is never a valid
expression, so evaluation raises and the caught exception yields `none`. -/
def get_formula_based_commission (attrs : List (String × String))
    (formula : List FPart) (safe_eval : String → Option ℚ) : Option ℚ :=
  let substituted := substituteVariables attrs formula
  if substituted.all FPart.isLit then safe_eval (renderFormula substituted)
  else none

/-- External collaborators of `create_erpnext_order`, passed as narrow
contracts: the catalog service, the Sales Partner's stored commission
formula (already parsed to a template; `none` when not configured or
empty), the document attribute map used by placeholder substitution,
`frappe.safe_eval` on a placeholder-free string, and the pre/post submit
extension hooks (`afterSubmitRegistered` is whether the post-submit hook
list is non-empty). -/
structure Ctx where
  create_item : RemoteLineItem → String
  commission_formula : Option (List FPart)
  attrsOf : SalesOrder → List (String × String)
  safe_eval : String → Option ℚ
  beforeSubmitHook : Option (StoreConfig → SalesOrder → RemoteOrder → Option SalesOrder)
  afterSubmitRegistered : Bool

/-- The Sales Order as it stands right before the commission block
(orders.py line 267): header, merchandise lines, tax/shipping charges, the
difference charge computed against the grand total of the first save (which
saw only merchandise plus tax/shipping charges), the withholding reversal,
and the discount settings (lines 263-265). -/
def pre_commission_so (store : StoreConfig) (order : RemoteOrder)
    (its : List SOItem) (disc : ℚ) : SalesOrder :=
  let taxes1 := baseTaxes store order
  let grand_total := itemsTotal its + chargesTotal taxes1
  { shipstation_order_id := order.order_id
    sales_partner := store.sales_partner
    items := its
    taxes := taxes1 ++ differenceCharge store order grand_total
      ++ withholdingCharge store order
    apply_discount_on := if 0 < disc then some "Grand Total" else none
    discount_amount := if 0 < disc then disc else 0
    submitted := false }

/-- The charge list a commission evaluation result yields (orders.py lines
273-284): a truthy (nonzero, non-null) evaluated value is appended as a
negative charge flagged as included in the paid amount. -/
def commissionChargesOf (store : StoreConfig) : Option ℚ → List SOCharge
  | some v => if v ≠ 0 then [commissionCharge store v] else []
  | none => []

/-- The commission block (orders.py lines 267-284): only with a bound sales
partner, commission enabled and a configured formula. -/
def commissionCharges (ctx : Ctx) (store : StoreConfig) (order : RemoteOrder)
    (its : List SOItem) (disc : ℚ) : List SOCharge :=
  if store.sales_partner.isSome && store.apply_commission
      && ctx.commission_formula.isSome then
    commissionChargesOf store
      (get_formula_based_commission (ctx.attrsOf (pre_commission_so store order its disc))
        (ctx.commission_formula.getD []) ctx.safe_eval)
  else []

/-- The fully-populated Sales Order just before the second save
(orders.py line 286). -/
def buildSalesOrder (ctx : Ctx) (store : StoreConfig) (order : RemoteOrder)
    (its : List SOItem) (disc : ℚ) : SalesOrder :=
  let so1 := pre_commission_so store order its disc
  { so1 with taxes := so1.taxes ++ commissionCharges ctx store order its disc }

/-- Observable outcome of `create_erpnext_order`: the final document value
(`none` when creation aborted before the first save, or when the pre-submit
hook returned a falsy value so nothing was submitted), how many times
`so.save()` ran, whether `so.submit()` ran, whether the post-submit hook
was actually invoked, and whether the post-submit block indexed an empty
hook list (an uncaught `IndexError`). -/
structure CreateOutcome where
  so : Option SalesOrder
  saveCount : Nat
  submitted : Bool
  afterHookCalled : Bool
  afterHookIndexError : Bool
deriving DecidableEq

/-- `create_erpnext_order` (orders.py lines 120-302).  Aborts with no save
when the order has no line items or no merchandise line survives mapping;
otherwise builds the document, saves twice, runs the optional pre-submit
hook (a falsy hook result skips the save/submit), submits, and then — as
written in the source at line 298 — enters the post-submit block exactly
when a PRE-submit hook is registered, invoking
`after_submit_hook[0]` (an `IndexError` when no post-submit hook exists). -/
def create_erpnext_order (ctx : Ctx) (store : StoreConfig)
    (order : RemoteOrder) : CreateOutcome :=
  let order_items := order.items.getD []
  if order_items.isEmpty then
    { so := none, saveCount := 0, submitted := false
      afterHookCalled := false, afterHookIndexError := false }
  else
    let mapped := mapLineItems ctx.create_item store order_items
    if mapped.1.isEmpty then
      { so := none, saveCount := 0, submitted := false
        afterHookCalled := false, afterHookIndexError := false }
    else
      let so := buildSalesOrder ctx store order mapped.1 mapped.2
      match ctx.beforeSubmitHook with
      | none =>
        { so := some { so with submitted := true }, saveCount := 2, submitted := true
          afterHookCalled := false, afterHookIndexError := false }
      | some hook =>
        match hook store so order with
        | some so2 =>
          { so := some { so2 with submitted := true }, saveCount := 3, submitted := true
            afterHookCalled := ctx.afterSubmitRegistered
            afterHookIndexError := !ctx.afterSubmitRegistered }
        | none =>
          { so := none, saveCount := 2, submitted := false
            afterHookCalled := ctx.afterSubmitRegistered
            afterHookIndexError := !ctx.afterSubmitRegistered }

/-- The per-store order loop of `list_orders` (orders.py lines 81-90) with
the per-order veto hook unregistered: each eligible order is created, and a
successfully submitted order's external id becomes visible to later
duplicate checks.  Returns the final set of submitted external ids. -/
def process_orders (ctx : Ctx) (settings : TenantSettings) (store : StoreConfig) :
    List String → List RemoteOrder → List String
  | db, [] => db
  | db, o :: rest =>
    let db' :=
      if validate_order db settings (some o) store then
        if (create_erpnext_order ctx store o).submitted then db ++ [o.order_id] else db
      else db
    process_orders ctx settings store db' rest

/-- The taxes table of the outcome's document ([] when no document). -/
def taxesOf (out : CreateOutcome) : List SOCharge :=
  match out.so with
  | some so => so.taxes
  | none => []

/-- Identifies a difference/settlement charge: the fixed description used
only by the difference block; the flag conjunct separates it from
commission charges, whose description embeds a runtime value. -/
def isDiffCharge (c : SOCharge) : Bool :=
  c.description == "Shipstation Difference Amount" && !c.included_in_paid_amount

/-- Collaborator context with no hooks registered and no commission
formula configured. -/
def noHooksCtx : Ctx :=
  { create_item := fun i => i.order_item_id
    commission_formula := none
    attrsOf := fun _ => []
    safe_eval := fun _ => none
    beforeSubmitHook := none
    afterSubmitRegistered := false }

/-- A store with distinct accounts, no partner, no withholding. -/
def sampleStore : StoreConfig :=
  { tax_account := "Tax Head"
    shipping_income_account := "Shipping Income Head"
    difference_account := "Difference Head"
    commission_account := "Commission Head"
    sales_partner := none
    apply_commission := false
    withholding := false
    warehouse := "Main Warehouse" }

/-- Tenant with empty warehouse allow-list and no date cutoff. -/
def sampleSettings : TenantSettings :=
  { active_warehouse_ids := [], since_date := none }

/-- A merchandise line: one unit at 10. -/
def normalLine : RemoteLineItem :=
  { quantity := 1, unit_price := some 10, line_item_key := "normal"
    order_item_id := "ITEM-1", options := none }

/-- The synthetic discount pseudo-line of the spec example: unit price -5,
quantity 2. -/
def discountLine : RemoteLineItem :=
  { quantity := 2, unit_price := some (-5), line_item_key := "discount"
    order_item_id := "ITEM-0", options := none }

/-- A plain remote order with one merchandise line and no monetary extras. -/
def sampleOrder : RemoteOrder :=
  { order_id := "SS-1", order_number := "1001", warehouse_id := some 7
    create_date := 20, tax_amount := 0, shipping_amount := 0
    amount_paid := none, items := some [normalLine] }

/-- An order with no line items at all. -/
def emptyOrder : RemoteOrder :=
  { sampleOrder with order_id := "SS-EMPTY", items := none }

/-- An order whose reported `amount_paid` is present but zero while its
grand total is 10. -/
def paidZeroOrder : RemoteOrder :=
  { sampleOrder with order_id := "SS-PAID0", amount_paid := some 0 }

/-- An order paid 10.001 against a grand total of 10: equal at 2 decimal
places, unequal at full precision. -/
def subCentOrder : RemoteOrder :=
  { sampleOrder with order_id := "SS-SUBCENT", amount_paid := some (10001 / 1000) }

/-- A merchandise line: one unit at 95. -/
def line95 : RemoteLineItem :=
  { normalLine with order_item_id := "ITEM-95", unit_price := some 95 }

/-- The spec's difference-charge example: merchandise 95, shipping 5
(grand total 100), amount paid 95. -/
def paid95Order : RemoteOrder :=
  { order_id := "SS-95", order_number := "1095", warehouse_id := some 7
    create_date := 20, tax_amount := 0, shipping_amount := 5
    amount_paid := some 95, items := some [line95] }

/-- The spec's withholding example: tax amount 8. -/
def taxedOrder : RemoteOrder :=
  { sampleOrder with order_id := "SS-TAX8", tax_amount := 8 }

/-- `sampleStore` with withholding enabled. -/
def withholdingStore : StoreConfig :=
  { sampleStore with withholding := true }

/-- A store with a bound sales partner and commission enabled. -/
def commissionStore : StoreConfig :=
  { sampleStore with sales_partner := some "Partner A", apply_commission := true }

/-- The spec's commission formula, parsed: a grand-total placeholder
followed by the literal text " * 0.1". -/
def commissionFormulaParts : List FPart :=
  [FPart.var "grand_total", FPart.lit " * 0.1"]

/-- Context where the partner's formula is configured, the document exposes
a grand total of 200, and arithmetic evaluation of the substituted string
succeeds with 20. -/
def commissionCtx : Ctx :=
  { noHooksCtx with
    commission_formula := some commissionFormulaParts
    attrsOf := fun _ => [("grand_total", "200")]
    safe_eval := fun s => if s == "200 * 0.1" then some (20 : ℚ) else none }

/-- Like `commissionCtx` but the document exposes no attributes, so the
placeholder survives substitution and evaluation fails. -/
def commissionFailCtx : Ctx :=
  { commissionCtx with attrsOf := fun _ => [] }

/-- Context with only a post-submit hook registered. -/
def afterOnlyCtx : Ctx :=
  { noHooksCtx with afterSubmitRegistered := true }

/-- Context with only a pre-submit (identity) hook registered. -/
def beforeOnlyCtx : Ctx :=
  { noHooksCtx with beforeSubmitHook := some fun _ so _ => some so }

theorem validate_order_false_of_mem (db : List String) (settings : TenantSettings)
    (o : RemoteOrder) (st : StoreConfig) (h : o.order_id ∈ db) :
    validate_order db settings (some o) st = false := by
  have hc : db.contains o.order_id = true := List.elem_iff.mpr h
  simp [validate_order, h]

theorem not_mem_of_validate_order_true (db : List String) (settings : TenantSettings)
    (o : RemoteOrder) (st : StoreConfig)
    (h : validate_order db settings (some o) st = true) : o.order_id ∉ db := by
  intro hm
  rw [validate_order_false_of_mem db settings o st hm] at h
  simp at h

theorem create_erpnext_order_no_before_hook (ctx : Ctx) (store : StoreConfig)
    (order : RemoteOrder) (hb : ctx.beforeSubmitHook = none)
    (hm : (mapLineItems ctx.create_item store (order.items.getD [])).1 ≠ []) :
    create_erpnext_order ctx store order =
      { so := some { buildSalesOrder ctx store order
            (mapLineItems ctx.create_item store (order.items.getD [])).1
            (mapLineItems ctx.create_item store (order.items.getD [])).2 with
            submitted := true }
        saveCount := 2, submitted := true
        afterHookCalled := false, afterHookIndexError := false } := by
  have hE : (order.items.getD []).isEmpty = false := by
    rw [List.isEmpty_eq_false]
    intro h0
    apply hm
    rw [h0]
    rfl
  have hM : (mapLineItems ctx.create_item store (order.items.getD [])).1.isEmpty = false := by
    rw [List.isEmpty_eq_false]
    exact hm
  simp only [create_erpnext_order, hE, hM, hb, Bool.false_eq_true, if_false]

theorem taxesOf_no_before_hook (ctx : Ctx) (store : StoreConfig)
    (order : RemoteOrder) (hb : ctx.beforeSubmitHook = none)
    (hm : (mapLineItems ctx.create_item store (order.items.getD [])).1 ≠ []) :
    taxesOf (create_erpnext_order ctx store order) =
      baseTaxes store order
      ++ differenceCharge store order
          (itemsTotal (mapLineItems ctx.create_item store (order.items.getD [])).1
            + chargesTotal (baseTaxes store order))
      ++ withholdingCharge store order
      ++ commissionCharges ctx store order
          (mapLineItems ctx.create_item store (order.items.getD [])).1
          (mapLineItems ctx.create_item store (order.items.getD [])).2 := by
  rw [create_erpnext_order_no_before_hook ctx store order hb hm]
  simp [taxesOf, buildSalesOrder, pre_commission_so]

theorem filter_isDiffCharge_baseTaxes (store : StoreConfig) (order : RemoteOrder) :
    (baseTaxes store order).filter isDiffCharge = [] := by
  unfold baseTaxes
  rw [List.filter_append]
  split <;> split <;> simp [isDiffCharge]

theorem filter_isDiffCharge_differenceChargeWith (store : StoreConfig) (s gt : ℚ)
    (ap? : Option ℚ) : (differenceChargeWith store s gt ap?).filter isDiffCharge =
      differenceChargeWith store s gt ap? := by
  cases ap? with
  | none => rfl
  | some ap =>
    simp only [differenceChargeWith]
    split
    · rfl
    · rfl

theorem filter_isDiffCharge_differenceCharge (store : StoreConfig) (order : RemoteOrder)
    (gt : ℚ) : (differenceCharge store order gt).filter isDiffCharge =
      differenceCharge store order gt := by
  unfold differenceCharge
  exact filter_isDiffCharge_differenceChargeWith store order.shipping_amount gt order.amount_paid

theorem filter_isDiffCharge_withholding (store : StoreConfig) (order : RemoteOrder) :
    (withholdingCharge store order).filter isDiffCharge = [] := by
  unfold withholdingCharge
  split <;> simp [isDiffCharge]

theorem filter_isDiffCharge_commissionChargesOf (store : StoreConfig) (r : Option ℚ) :
    (commissionChargesOf store r).filter isDiffCharge = [] := by
  cases r with
  | none => rfl
  | some v =>
    simp only [commissionChargesOf]
    split <;> simp [isDiffCharge, commissionCharge]

theorem filter_isDiffCharge_commission (ctx : Ctx) (store : StoreConfig)
    (order : RemoteOrder) (its : List SOItem) (disc : ℚ) :
    (commissionCharges ctx store order its disc).filter isDiffCharge = [] := by
  unfold commissionCharges
  split
  · exact filter_isDiffCharge_commissionChargesOf store _
  · rfl

theorem filter_flag_baseTaxes (store : StoreConfig) (order : RemoteOrder) :
    (baseTaxes store order).filter (fun c => c.included_in_paid_amount) = [] := by
  unfold baseTaxes
  rw [List.filter_append]
  split <;> split <;> rfl

theorem filter_flag_differenceChargeWith (store : StoreConfig) (s gt : ℚ)
    (ap? : Option ℚ) :
    (differenceChargeWith store s gt ap?).filter (fun c => c.included_in_paid_amount) = [] := by
  cases ap? with
  | none => rfl
  | some ap =>
    simp only [differenceChargeWith]
    split
    · rfl
    · rfl

theorem filter_flag_withholding (store : StoreConfig) (order : RemoteOrder) :
    (withholdingCharge store order).filter (fun c => c.included_in_paid_amount) = [] := by
  unfold withholdingCharge
  split <;> rfl

theorem filter_flag_commissionChargesOf (store : StoreConfig) (r : Option ℚ) :
    (commissionChargesOf store r).filter (fun c => c.included_in_paid_amount) =
      commissionChargesOf store r := by
  cases r with
  | none => rfl
  | some v =>
    simp only [commissionChargesOf]
    split <;> rfl

theorem filter_flag_commission (ctx : Ctx) (store : StoreConfig)
    (order : RemoteOrder) (its : List SOItem) (disc : ℚ) :
    (commissionCharges ctx store order its disc).filter (fun c => c.included_in_paid_amount) =
      commissionCharges ctx store order its disc := by
  unfold commissionCharges
  split
  · exact filter_flag_commissionChargesOf store _
  · rfl

theorem filter_tax_account_baseTaxes (store : StoreConfig) (order : RemoteOrder)
    (ht : order.tax_amount ≠ 0)
    (h1 : store.shipping_income_account ≠ store.tax_account) :
    (baseTaxes store order).filter (fun c => c.account_head == store.tax_account) =
      [{ account_head := store.tax_account
         description := "Shipstation Tax Amount"
         tax_amount := order.tax_amount
         included_in_paid_amount := false }] := by
  unfold baseTaxes
  rw [List.filter_append, if_pos ht]
  split <;> simp [h1]

theorem filter_tax_account_differenceChargeWith (store : StoreConfig) (s gt : ℚ)
    (ap? : Option ℚ)
    (h1 : store.shipping_income_account ≠ store.tax_account)
    (h2 : store.difference_account ≠ store.tax_account) :
    (differenceChargeWith store s gt ap?).filter
      (fun c => c.account_head == store.tax_account) = [] := by
  cases ap? with
  | none => rfl
  | some ap =>
    simp only [differenceChargeWith]
    split
    · split <;> simp [h1, h2]
    · rfl

theorem filter_tax_account_withholding (store : StoreConfig) (order : RemoteOrder) :
    (withholdingCharge store order).filter (fun c => c.account_head == store.tax_account) =
      withholdingCharge store order := by
  unfold withholdingCharge
  split <;> simp

theorem filter_tax_account_commissionChargesOf (store : StoreConfig) (r : Option ℚ)
    (h3 : store.commission_account ≠ store.tax_account) :
    (commissionChargesOf store r).filter
      (fun c => c.account_head == store.tax_account) = [] := by
  cases r with
  | none => rfl
  | some v =>
    simp only [commissionChargesOf]
    split <;> simp [commissionCharge, h3]

theorem filter_tax_account_commission (ctx : Ctx) (store : StoreConfig)
    (order : RemoteOrder) (its : List SOItem) (disc : ℚ)
    (h3 : store.commission_account ≠ store.tax_account) :
    (commissionCharges ctx store order its disc).filter
      (fun c => c.account_head == store.tax_account) = [] := by
  unfold commissionCharges
  split
  · exact filter_tax_account_commissionChargesOf store _ h3
  · rfl

/-- C1: a remote order whose external id already belongs to a submitted
internal record is rejected by `validate_order`; consequently a
synchronization run over any list of fetched orders leaves the number of
submitted internal records carrying that external id unchanged — no second
Submitted internal order is ever materialized for it. -/
theorem duplicate_order_gate :
    (∀ (db : List String) (settings : TenantSettings) (o : RemoteOrder) (st : StoreConfig),
      o.order_id ∈ db → validate_order db settings (some o) st = false)
    ∧ (∀ (ctx : Ctx) (settings : TenantSettings) (st : StoreConfig)
        (orders : List RemoteOrder) (db : List String) (id : String),
      id ∈ db → (process_orders ctx settings st db orders).count id = db.count id) := by
  constructor
  · exact validate_order_false_of_mem
  · intro ctx settings st orders
    induction orders with
    | nil => intro db id _; rfl
    | cons o rest ih =>
      intro db id h
      simp only [process_orders]
      by_cases hv : validate_order db settings (some o) st = true
      · rw [if_pos hv]
        by_cases hs : (create_erpnext_order ctx st o).submitted = true
        · rw [if_pos hs]
          have hne : o.order_id ≠ id := by
            intro he
            exact not_mem_of_validate_order_true db settings o st hv (he ▸ h)
          rw [ih (db ++ [o.order_id]) id (List.mem_append_left _ h)]
          rw [List.count_append]
          have hz : List.count id [o.order_id] = 0 := by
            simp [List.count_singleton]
            exact hne
          omega
        · rw [if_neg hs]
          exact ih db id h
      · rw [if_neg hv]
        exact ih db id h

/-- Witness for C1 at a concrete database already holding the order's id. -/
theorem duplicate_order_gate_witness :
    validate_order ["SS-1"] sampleSettings (some sampleOrder) sampleStore = false
    ∧ (process_orders noHooksCtx sampleSettings sampleStore ["SS-1"] [sampleOrder]).count "SS-1"
        = (["SS-1"] : List String).count "SS-1" :=
  ⟨duplicate_order_gate.1 ["SS-1"] sampleSettings sampleOrder sampleStore (by decide),
   duplicate_order_gate.2 noHooksCtx sampleSettings sampleStore [sampleOrder] ["SS-1"] "SS-1"
     (by decide)⟩

/-- C2: with a non-empty warehouse allow-list, an order whose warehouse id
is not in the list is rejected whatever its other fields; with an empty
allow-list the warehouse rule rejects nothing — the verdict reduces to the
duplicate and date rules alone. -/
theorem warehouse_allowlist_gate :
    (∀ (db : List String) (settings : TenantSettings) (o : RemoteOrder) (st : StoreConfig),
      settings.active_warehouse_ids ≠ [] →
      warehouseIdIn o.warehouse_id settings.active_warehouse_ids = false →
      validate_order db settings (some o) st = false)
    ∧ (∀ (db : List String) (sd : Option Int) (o : RemoteOrder) (st : StoreConfig),
      validate_order db ⟨[], sd⟩ (some o) st =
        (!db.contains o.order_id && dateFilterOk sd o.create_date)) := by
  constructor
  · intro db settings o st hne hw
    have hE : settings.active_warehouse_ids.isEmpty = false :=
      List.isEmpty_eq_false.mpr hne
    simp [validate_order, hE, hw]
  · intro db sd o st
    by_cases hc : db.contains o.order_id = true
    · simp [validate_order, hc]
    · have hc' : db.contains o.order_id = false := by
        simpa using hc
      simp [validate_order, hc']

/-- Witness for C2: warehouse 7 against allow-list [5], and the empty
allow-list characterization at a concrete order. -/
theorem warehouse_allowlist_gate_witness :
    validate_order [] ⟨[5], none⟩ (some sampleOrder) sampleStore = false
    ∧ validate_order [] ⟨[], some 10⟩ (some sampleOrder) sampleStore =
        (!(List.contains [] sampleOrder.order_id)
          && dateFilterOk (some 10) sampleOrder.create_date) :=
  ⟨warehouse_allowlist_gate.1 [] ⟨[5], none⟩ sampleOrder sampleStore (by decide) (by decide),
   warehouse_allowlist_gate.2 [] (some 10) sampleOrder sampleStore⟩

/-- C3: over line items all of quantity ≥ 1, the accumulated discount total
is exactly the sum of |unit_price × quantity| over the lines keyed
"discount"; those lines yield no merchandise line and the merchandise
lines are exactly the non-discount lines (so no merchandise line
contributes to the discount total); on the spec's example list the
discount total is 10 and the merchandise total is 10. -/
theorem discount_line_mapping :
    (∀ (ci : RemoteLineItem → String) (st : StoreConfig) (ls : List RemoteLineItem),
      (∀ i ∈ ls, 1 ≤ i.quantity) →
      (mapLineItems ci st ls).2 =
        ((ls.filter fun i => i.line_item_key == "discount").map
          fun i => |i.unit_price.getD 0 * (i.quantity : ℚ)|).sum
      ∧ (mapLineItems ci st ls).1 =
        (ls.filter fun i => !(i.line_item_key == "discount")).map
          fun i => toSOItem ci st i (i.unit_price.getD 0))
    ∧ (mapLineItems (fun i => i.order_item_id) sampleStore [discountLine, normalLine]).2 = 10
    ∧ itemsTotal (mapLineItems (fun i => i.order_item_id) sampleStore
        [discountLine, normalLine]).1 = 10 := by
  refine ⟨?_, ?_, ?_⟩
  · intro ci st ls
    induction ls with
    | nil => exact fun _ => ⟨rfl, rfl⟩
    | cons i rest ih =>
      intro h
      have hq : ¬ i.quantity < 1 := not_lt.mpr (h i (List.mem_cons_self i rest))
      have hrest := ih fun j hj => h j (List.mem_cons_of_mem i hj)
      by_cases hk : i.line_item_key = "discount"
      · constructor
        · simp only [mapLineItems, if_neg hq, if_pos hk, List.filter_cons, hk]
          simp [hrest.1]
        · simp only [mapLineItems, if_neg hq, if_pos hk, List.filter_cons, hk]
          simp [hrest.2]
      · constructor
        · simp only [mapLineItems, if_neg hq, if_neg hk, List.filter_cons]
          simp [hrest.1, hk]
        · simp only [mapLineItems, if_neg hq, if_neg hk, List.filter_cons]
          simp [hrest.2, hk]
  · norm_num [mapLineItems, discountLine, normalLine]
    simp
  · norm_num [mapLineItems, discountLine, normalLine, itemsTotal, toSOItem]
    simp

/-- Witness for C3 at the spec's example list. -/
theorem discount_line_mapping_witness :
    (mapLineItems (fun i => i.order_item_id) sampleStore [discountLine, normalLine]).2 =
      (([discountLine, normalLine].filter fun i => i.line_item_key == "discount").map
        fun i => |i.unit_price.getD 0 * (i.quantity : ℚ)|).sum
    ∧ (mapLineItems (fun i => i.order_item_id) sampleStore [discountLine, normalLine]).1 =
      ([discountLine, normalLine].filter fun i => !(i.line_item_key == "discount")).map
        fun i => toSOItem (fun i => i.order_item_id) sampleStore i (i.unit_price.getD 0) :=
  discount_line_mapping.1 (fun i => i.order_item_id) sampleStore [discountLine, normalLine]
    (by decide)

/-- C4: when no merchandise line survives mapping — including an order with
no line items at all — `create_erpnext_order` returns nothing, performs no
save and no submit, so no internal order is persisted. -/
theorem empty_merchandise_abandons_order (ctx : Ctx) (store : StoreConfig)
    (order : RemoteOrder)
    (h : (mapLineItems ctx.create_item store (order.items.getD [])).1 = []) :
    create_erpnext_order ctx store order =
      { so := none, saveCount := 0, submitted := false
        afterHookCalled := false, afterHookIndexError := false } := by
  have hM : (mapLineItems ctx.create_item store (order.items.getD [])).1.isEmpty = true :=
    List.isEmpty_iff.mpr h
  by_cases hE : (order.items.getD []).isEmpty = true
  · simp [create_erpnext_order, hE]
  · simp [create_erpnext_order, hE, hM]

/-- Witness for C4 at an order with no line items. -/
theorem empty_merchandise_abandons_order_witness :
    create_erpnext_order noHooksCtx sampleStore emptyOrder =
      { so := none, saveCount := 0, submitted := false
        afterHookCalled := false, afterHookIndexError := false } :=
  empty_merchandise_abandons_order noHooksCtx sampleStore emptyOrder (by decide)

/-- C10: a placeholder whose name is not an attribute of the document
survives substitution verbatim (it is not replaced by zero, the empty
string, or any default), and commission evaluation of a formula still
containing it yields no commission, whatever the arithmetic evaluator. -/
theorem unknown_placeholder_unsubstituted
    (attrs : List (String × String)) (parts : List FPart) (n : String)
    (ev : String → Option ℚ) (hin : FPart.var n ∈ parts)
    (hmiss : attrs.lookup n = none) :
    FPart.var n ∈ substituteVariables attrs parts
    ∧ get_formula_based_commission attrs parts ev = none := by
  have hsub : FPart.var n ∈ substituteVariables attrs parts := by
    induction parts with
    | nil => cases hin
    | cons p rest ih =>
      cases hin with
      | head => simp [substituteVariables, hmiss]
      | tail _ hmem =>
        cases p with
        | lit s =>
          simp only [substituteVariables]
          exact List.mem_cons_of_mem _ (ih hmem)
        | var m =>
          simp only [substituteVariables]
          exact List.mem_cons_of_mem _ (ih hmem)
  refine ⟨hsub, ?_⟩
  have hall : ((substituteVariables attrs parts).all FPart.isLit) = false := by
    rw [← Bool.not_eq_true, List.all_eq_true]
    intro hforall
    have hv := hforall (FPart.var n) hsub
    simp [FPart.isLit] at hv
  simp [get_formula_based_commission, hall]

/-- Witness for C10 at a one-placeholder formula with no matching
attribute. -/
theorem unknown_placeholder_unsubstituted_witness :
    FPart.var "b" ∈ substituteVariables [("a", "1")] [FPart.var "b"]
    ∧ get_formula_based_commission [("a", "1")] [FPart.var "b"]
        (fun _ => some (1 : ℚ)) = none :=
  unknown_placeholder_unsubstituted [("a", "1")] [FPart.var "b"] "b"
    (fun _ => some (1 : ℚ)) (by decide) (by decide)

theorem filter_flag_differenceCharge (store : StoreConfig) (order : RemoteOrder) (gt : ℚ) :
    (differenceCharge store order gt).filter (fun c => c.included_in_paid_amount) = [] := by
  unfold differenceCharge
  exact filter_flag_differenceChargeWith store order.shipping_amount gt order.amount_paid

theorem filter_tax_account_differenceCharge (store : StoreConfig) (order : RemoteOrder)
    (gt : ℚ) (h1 : store.shipping_income_account ≠ store.tax_account)
    (h2 : store.difference_account ≠ store.tax_account) :
    (differenceCharge store order gt).filter
      (fun c => c.account_head == store.tax_account) = [] := by
  unfold differenceCharge
  exact filter_tax_account_differenceChargeWith store order.shipping_amount gt
    order.amount_paid h1 h2

/-- C9 (code bug, orders.py line 298): with only a post-submit hook
registered, the order submits but the post-submit hook is never invoked;
with only a pre-submit hook registered, the post-submit block indexes the
empty post-submit hook list (an uncaught IndexError).  The block is gated
on the PRE-submit hook's registration instead of the post-submit hook's. -/
theorem after_submit_hook_gating_bug :
    ((create_erpnext_order afterOnlyCtx sampleStore sampleOrder).submitted = true
      ∧ (create_erpnext_order afterOnlyCtx sampleStore sampleOrder).afterHookCalled = false)
    ∧ ((create_erpnext_order beforeOnlyCtx sampleStore sampleOrder).submitted = true
      ∧ (create_erpnext_order beforeOnlyCtx sampleStore sampleOrder).afterHookIndexError = true) := by
  refine ⟨⟨?_, ?_⟩, ?_, ?_⟩ <;> rfl

/-- C5 counterexample: `amount_paid` is present (but zero) and the
2-decimal-rounded grand total (10) differs from it, yet no corrective
charge is appended — the created order has no charge lines at all. -/
theorem difference_charge_zero_paid_counterexample :
    paidZeroOrder.amount_paid = some 0
    ∧ quantize2 (itemsTotal (mapLineItems noHooksCtx.create_item sampleStore
        (paidZeroOrder.items.getD [])).1
        + chargesTotal (baseTaxes sampleStore paidZeroOrder)) ≠ 0
    ∧ ((create_erpnext_order noHooksCtx sampleStore paidZeroOrder).so.map
        fun so => so.taxes) = some [] := by
  refine ⟨rfl, ?_, ?_⟩
  · norm_num [quantize2, roundHalfEven, itemsTotal, chargesTotal, mapLineItems, baseTaxes,
      toSOItem, paidZeroOrder, sampleOrder, normalLine, noHooksCtx, sampleStore,
      show ("normal" : String) ≠ "discount" by decide]
  · rfl

/-- C5 (amended): the corrective difference charge is appended exactly when
`amount_paid` is present AND NONZERO and differs from the 2-decimal-rounded
grand total; it is then unique, equal to the negated discrepancy, routed to
the shipping-income account when the discrepancy equals the reported
shipping amount and to the generic difference account otherwise; an
absent, zero, or matching `amount_paid` yields no difference charge. -/
theorem difference_charge_amended (ctx : Ctx) (store : StoreConfig) (order : RemoteOrder)
    (hb : ctx.beforeSubmitHook = none)
    (hm : (mapLineItems ctx.create_item store (order.items.getD [])).1 ≠ []) :
    (∀ ap : ℚ, order.amount_paid = some ap → ap ≠ 0 →
      quantize2 (itemsTotal (mapLineItems ctx.create_item store (order.items.getD [])).1
        + chargesTotal (baseTaxes store order)) ≠ ap →
      (taxesOf (create_erpnext_order ctx store order)).filter isDiffCharge =
        [{ account_head :=
             if quantize2 (itemsTotal (mapLineItems ctx.create_item store
                   (order.items.getD [])).1 + chargesTotal (baseTaxes store order)) - ap
               = order.shipping_amount
             then store.shipping_income_account else store.difference_account
           description := "Shipstation Difference Amount"
           tax_amount := -(quantize2 (itemsTotal (mapLineItems ctx.create_item store
               (order.items.getD [])).1 + chargesTotal (baseTaxes store order)) - ap)
           included_in_paid_amount := false }])
    ∧ ((order.amount_paid = none ∨ order.amount_paid = some 0
        ∨ order.amount_paid = some (quantize2 (itemsTotal (mapLineItems ctx.create_item store
            (order.items.getD [])).1 + chargesTotal (baseTaxes store order)))) →
      (taxesOf (create_erpnext_order ctx store order)).filter isDiffCharge = []) := by
  have hT := taxesOf_no_before_hook ctx store order hb hm
  constructor
  · intro ap hap hap0 hneq
    rw [hT, List.filter_append, List.filter_append, List.filter_append,
      filter_isDiffCharge_baseTaxes, filter_isDiffCharge_withholding,
      filter_isDiffCharge_commission, filter_isDiffCharge_differenceCharge]
    simp only [List.nil_append, List.append_nil]
    unfold differenceCharge
    rw [hap]
    simp only [differenceChargeWith]
    rw [if_pos ⟨hap0, hneq⟩]
  · intro hcase
    rw [hT, List.filter_append, List.filter_append, List.filter_append,
      filter_isDiffCharge_baseTaxes, filter_isDiffCharge_withholding,
      filter_isDiffCharge_commission, filter_isDiffCharge_differenceCharge]
    simp only [List.nil_append, List.append_nil]
    unfold differenceCharge
    rcases hcase with h | h | h
    · rw [h]
      rfl
    · rw [h]
      simp [differenceChargeWith]
    · rw [h]
      simp [differenceChargeWith]

/-- Witness for C5 (amended) at the spec example: merchandise 95 plus
shipping 5 gives a grand total of 100, amount paid 95 — one difference
charge of -5 routed to the shipping-income account. -/
theorem difference_charge_amended_witness :
    (taxesOf (create_erpnext_order noHooksCtx sampleStore paid95Order)).filter isDiffCharge =
      [{ account_head := sampleStore.shipping_income_account
         description := "Shipstation Difference Amount"
         tax_amount := -5
         included_in_paid_amount := false }] := by
  have h := (difference_charge_amended noHooksCtx sampleStore paid95Order rfl (by decide)).1
    95 rfl (by norm_num)
    (by norm_num [quantize2, roundHalfEven, itemsTotal, chargesTotal, mapLineItems, baseTaxes,
      toSOItem, paid95Order, line95, normalLine, noHooksCtx, sampleStore,
      show ("normal" : String) ≠ "discount" by decide])
  rw [h]
  norm_num [quantize2, roundHalfEven, itemsTotal, chargesTotal, mapLineItems, baseTaxes,
    toSOItem, paid95Order, line95, normalLine, noHooksCtx, sampleStore,
    show ("normal" : String) ≠ "discount" by decide]

/-- C6 counterexample: amount paid 10.001 and grand total 10 agree at 2
decimal places, yet the comparison flags a mismatch and a difference charge
is appended — `amount_paid` is not rounded before comparison. -/
theorem rounding_comparison_counterexample :
    quantize2 (itemsTotal (mapLineItems noHooksCtx.create_item sampleStore
        (subCentOrder.items.getD [])).1 + chargesTotal (baseTaxes sampleStore subCentOrder))
      = quantize2 (10001 / 1000)
    ∧ ((taxesOf (create_erpnext_order noHooksCtx sampleStore subCentOrder)).filter
        isDiffCharge).length = 1 := by
  constructor
  · norm_num [quantize2, roundHalfEven, itemsTotal, chargesTotal, mapLineItems, baseTaxes,
      toSOItem, subCentOrder, sampleOrder, normalLine, noHooksCtx, sampleStore,
      show ("normal" : String) ≠ "discount" by decide]
  · rw [taxesOf_no_before_hook noHooksCtx sampleStore subCentOrder rfl (by decide),
      List.filter_append, List.filter_append, List.filter_append,
      filter_isDiffCharge_baseTaxes, filter_isDiffCharge_withholding,
      filter_isDiffCharge_commission, filter_isDiffCharge_differenceCharge]
    simp only [List.nil_append, List.append_nil]
    norm_num [differenceCharge, differenceChargeWith, quantize2, roundHalfEven, itemsTotal,
      chargesTotal, mapLineItems, baseTaxes, toSOItem, subCentOrder, sampleOrder, normalLine,
      noHooksCtx, sampleStore, show ("normal" : String) ≠ "discount" by decide]

/-- C6 (amended): the reconciler rounds only the grand total to 2 decimal
places and compares it with the raw `amount_paid` (and the discrepancy with
the raw shipping amount), so a difference charge appears exactly when the
rounded grand total differs from the unrounded `amount_paid` — two amounts
equal at 2 decimal places can still compare unequal. -/
theorem rounding_comparison_amended (ctx : Ctx) (store : StoreConfig) (order : RemoteOrder)
    (ap : ℚ) (hb : ctx.beforeSubmitHook = none)
    (hm : (mapLineItems ctx.create_item store (order.items.getD [])).1 ≠ [])
    (hap : order.amount_paid = some ap) :
    (taxesOf (create_erpnext_order ctx store order)).filter isDiffCharge ≠ [] ↔
      (ap ≠ 0 ∧ quantize2 (itemsTotal (mapLineItems ctx.create_item store
        (order.items.getD [])).1 + chargesTotal (baseTaxes store order)) ≠ ap) := by
  rw [taxesOf_no_before_hook ctx store order hb hm,
    List.filter_append, List.filter_append, List.filter_append,
    filter_isDiffCharge_baseTaxes, filter_isDiffCharge_withholding,
    filter_isDiffCharge_commission, filter_isDiffCharge_differenceCharge]
  simp only [List.nil_append, List.append_nil]
  unfold differenceCharge
  rw [hap]
  simp only [differenceChargeWith]
  by_cases h : ap ≠ 0 ∧ quantize2 (itemsTotal (mapLineItems ctx.create_item store
      (order.items.getD [])).1 + chargesTotal (baseTaxes store order)) ≠ ap
  · simp [h]
  · simp [h]

/-- Witness for C6 (amended) at the sub-cent order. -/
theorem rounding_comparison_amended_witness :
    (taxesOf (create_erpnext_order noHooksCtx sampleStore subCentOrder)).filter isDiffCharge ≠ []
      ↔ ((10001 / 1000 : ℚ) ≠ 0
        ∧ quantize2 (itemsTotal (mapLineItems noHooksCtx.create_item sampleStore
            (subCentOrder.items.getD [])).1
            + chargesTotal (baseTaxes sampleStore subCentOrder)) ≠ 10001 / 1000) :=
  rounding_comparison_amended noHooksCtx sampleStore subCentOrder (10001 / 1000)
    rfl (by decide) rfl

/-- C7: for a nonzero tax amount and pairwise-distinct configured accounts,
withholding enabled puts exactly two charges on the store's tax account —
the tax amount and its negation, summing to zero — while withholding
disabled leaves only the single positive tax charge. -/
theorem withholding_tax_reversal (ctx : Ctx) (store : StoreConfig) (order : RemoteOrder)
    (hb : ctx.beforeSubmitHook = none)
    (hm : (mapLineItems ctx.create_item store (order.items.getD [])).1 ≠ [])
    (ht : order.tax_amount ≠ 0)
    (h1 : store.shipping_income_account ≠ store.tax_account)
    (h2 : store.difference_account ≠ store.tax_account)
    (h3 : store.commission_account ≠ store.tax_account) :
    (store.withholding = true →
      (((taxesOf (create_erpnext_order ctx store order)).filter
        fun c => c.account_head == store.tax_account).map (fun c => c.tax_amount)
        = [order.tax_amount, -order.tax_amount])
      ∧ ((((taxesOf (create_erpnext_order ctx store order)).filter
        fun c => c.account_head == store.tax_account).map (fun c => c.tax_amount)).sum = 0))
    ∧ (store.withholding = false →
      (((taxesOf (create_erpnext_order ctx store order)).filter
        fun c => c.account_head == store.tax_account).map (fun c => c.tax_amount)
        = [order.tax_amount])) := by
  have hfilter : (taxesOf (create_erpnext_order ctx store order)).filter
      (fun c => c.account_head == store.tax_account) =
      [{ account_head := store.tax_account
         description := "Shipstation Tax Amount"
         tax_amount := order.tax_amount
         included_in_paid_amount := false }] ++ withholdingCharge store order := by
    rw [taxesOf_no_before_hook ctx store order hb hm,
      List.filter_append, List.filter_append, List.filter_append,
      filter_tax_account_baseTaxes store order ht h1,
      filter_tax_account_differenceCharge store order _ h1 h2,
      filter_tax_account_withholding,
      filter_tax_account_commission ctx store order _ _ h3]
    simp only [List.append_nil]
  constructor
  · intro hw
    have hwc : withholdingCharge store order =
        [{ account_head := store.tax_account
           description := "Shipstation Tax Amount"
           tax_amount := -order.tax_amount
           included_in_paid_amount := false }] := by
      unfold withholdingCharge
      rw [if_pos ⟨ht, hw⟩]
    rw [hfilter, hwc]
    constructor
    · rfl
    · simp
  · intro hw
    have hwc : withholdingCharge store order = [] := by
      unfold withholdingCharge
      rw [if_neg]
      intro hcon
      rw [hw] at hcon
      exact absurd hcon.2 (by simp)
    rw [hfilter, hwc]
    rfl

/-- Witness for C7 at tax amount 8, with and without withholding. -/
theorem withholding_tax_reversal_witness :
    (((taxesOf (create_erpnext_order noHooksCtx withholdingStore taxedOrder)).filter
      fun c => c.account_head == withholdingStore.tax_account).map (fun c => c.tax_amount)
      = [(8 : ℚ), -8])
    ∧ (((taxesOf (create_erpnext_order noHooksCtx sampleStore taxedOrder)).filter
      fun c => c.account_head == sampleStore.tax_account).map (fun c => c.tax_amount)
      = [(8 : ℚ)]) := by
  constructor
  · exact ((withholding_tax_reversal noHooksCtx withholdingStore taxedOrder rfl (by decide)
      (by decide) (by decide) (by decide) (by decide)).1 rfl).1
  · exact (withholding_tax_reversal noHooksCtx sampleStore taxedOrder rfl (by decide)
      (by decide) (by decide) (by decide) (by decide)).2 rfl

/-- C8: with a bound sales partner, commission enabled and a configured
formula, a successful nonzero evaluation v yields exactly one charge
flagged included-in-paid-amount — the commission charge, of amount -v —
and the order still submits; a failed evaluation (the caught exception,
`none`) yields no flagged charge and the order still submits unaborted. -/
theorem commission_formula_behavior (ctx : Ctx) (store : StoreConfig) (order : RemoteOrder)
    (f : List FPart) (p : String)
    (hb : ctx.beforeSubmitHook = none)
    (hm : (mapLineItems ctx.create_item store (order.items.getD [])).1 ≠ [])
    (hp : store.sales_partner = some p) (hc : store.apply_commission = true)
    (hf : ctx.commission_formula = some f) :
    (∀ v : ℚ, get_formula_based_commission
        (ctx.attrsOf (pre_commission_so store order
          (mapLineItems ctx.create_item store (order.items.getD [])).1
          (mapLineItems ctx.create_item store (order.items.getD [])).2))
        f ctx.safe_eval = some v → v ≠ 0 →
      ((taxesOf (create_erpnext_order ctx store order)).filter
        (fun c => c.included_in_paid_amount) = [commissionCharge store v]
      ∧ (create_erpnext_order ctx store order).submitted = true))
    ∧ (get_formula_based_commission
        (ctx.attrsOf (pre_commission_so store order
          (mapLineItems ctx.create_item store (order.items.getD [])).1
          (mapLineItems ctx.create_item store (order.items.getD [])).2))
        f ctx.safe_eval = none →
      ((taxesOf (create_erpnext_order ctx store order)).filter
        (fun c => c.included_in_paid_amount) = []
      ∧ (create_erpnext_order ctx store order).submitted = true)) := by
  have hcond : (store.sales_partner.isSome && store.apply_commission
      && ctx.commission_formula.isSome) = true := by
    simp [hp, hc, hf]
  have hsub : (create_erpnext_order ctx store order).submitted = true := by
    rw [create_erpnext_order_no_before_hook ctx store order hb hm]
  have hflag : (taxesOf (create_erpnext_order ctx store order)).filter
      (fun c => c.included_in_paid_amount) =
      commissionChargesOf store (get_formula_based_commission
        (ctx.attrsOf (pre_commission_so store order
          (mapLineItems ctx.create_item store (order.items.getD [])).1
          (mapLineItems ctx.create_item store (order.items.getD [])).2))
        f ctx.safe_eval) := by
    rw [taxesOf_no_before_hook ctx store order hb hm,
      List.filter_append, List.filter_append, List.filter_append,
      filter_flag_baseTaxes, filter_flag_differenceCharge, filter_flag_withholding,
      filter_flag_commission]
    simp only [List.nil_append, List.append_nil]
    unfold commissionCharges
    rw [if_pos hcond, hf]
    simp only [Option.getD_some]
  constructor
  · intro v hv hv0
    refine ⟨?_, hsub⟩
    rw [hflag, hv]
    simp only [commissionChargesOf]
    rw [if_pos hv0]
  · intro hv
    refine ⟨?_, hsub⟩
    rw [hflag, hv]
    rfl

/-- Witness for C8: the spec's formula evaluates to 20 (one flagged charge
of -20, order submits); with no matching attribute the placeholder survives
and evaluation fails (no flagged charge, order still submits). -/
theorem commission_formula_behavior_witness :
    ((taxesOf (create_erpnext_order commissionCtx commissionStore sampleOrder)).filter
        (fun c => c.included_in_paid_amount) = [commissionCharge commissionStore 20]
      ∧ (create_erpnext_order commissionCtx commissionStore sampleOrder).submitted = true)
    ∧ ((taxesOf (create_erpnext_order commissionFailCtx commissionStore sampleOrder)).filter
        (fun c => c.included_in_paid_amount) = []
      ∧ (create_erpnext_order commissionFailCtx commissionStore sampleOrder).submitted = true) :=
  ⟨(commission_formula_behavior commissionCtx commissionStore sampleOrder
      commissionFormulaParts "Partner A" rfl (by decide) rfl rfl rfl).1 20 (by decide)
      (by decide),
   (commission_formula_behavior commissionFailCtx commissionStore sampleOrder
      commissionFormulaParts "Partner A" rfl (by decide) rfl rfl rfl).2 (by decide)⟩
